import Mathlib

/-!
Shallow embedding of the production-optimization core
(`src/core/optimizers/base.py`, `src/core/optimizers/basic_production.py`,
`src/core/optimizers/demand_production.py`, `src/core/factory.py`,
`src/api/endpoints/production.py`).

The Gurobi solver is an opaque external dependency: the effect of
`model.optimize()` is modelled as an oracle value of type
`Except String Outcome` (an exception message, or a terminal status together
with the solution data the interpreting code reads back).  Python `dict`s
built by comprehensions are modelled as association lists with
insertion-order/overwrite semantics (`pyInsert` / `pyDict`).  Real numbers
are modelled as `ℚ`.
-/

namespace ProdOpt

/-- A product row of the input payload: `{name, profit_per_unit, cost_per_unit}`. -/
structure Product where
  name : String
  profit_per_unit : ℚ
  cost_per_unit : ℚ
deriving DecidableEq

/-- A resource row of the input payload: `{name, available_capacity}`. -/
structure Resource where
  name : String
  available_capacity : ℚ
deriving DecidableEq

/-- A resource-usage row: `{product_name, resource_name, usage_per_unit}`. -/
structure ResourceUsage where
  product_name : String
  resource_name : String
  usage_per_unit : ℚ
deriving DecidableEq

/-- A demand-constraint row; `min_demand` / `max_demand` are `none` when the
key is absent from the JSON object (`'min_demand' in dc` is the Python test). -/
structure DemandConstraint where
  product_name : String
  min_demand : Option ℚ
  max_demand : Option ℚ
deriving DecidableEq

/-- The request body handed to `solve`.  `demand_constraints = none` models a
payload in which the `'demand_constraints'` key is absent altogether. -/
structure InputData where
  objective : String
  products : List Product
  resources : List Resource
  resource_usage : List ResourceUsage
  demand_constraints : Option (List DemandConstraint)
deriving DecidableEq

/-- Python `dict` assignment `d[k] = v` on a dict modelled as an association
list: an existing key keeps its position and receives the new value, a fresh
key is appended at the end (CPython insertion order). -/
def pyInsert (k : String) (v : α) : List (String × α) → List (String × α)
  | [] => [(k, v)]
  | (k', v') :: rest => if k' = k then (k, v) :: rest else (k', v') :: pyInsert k v rest

/-- Python dict comprehension `{key(x): x for x in l}`: later occurrences of a
key overwrite the stored value but keep the first occurrence's position. -/
def pyDict (key : α → String) (l : List α) : List (String × α) :=
  l.foldl (fun d x => pyInsert (key x) x d) []

/-- Python `d[k]` / `k in d` on a dict modelled as an association list. -/
def dictGet (k : String) : List (String × α) → Option α
  | [] => none
  | (k', v) :: rest => if k' = k then some v else dictGet k rest

/-- The nested dict built by `_extract_common_data`'s loop over
`data['resource_usage']`: `resource_usage[product][resource] = usage_per_unit`. -/
def usageDict (rus : List ResourceUsage) : List (String × List (String × ℚ)) :=
  rus.foldl
    (fun d ru =>
      let inner := (dictGet ru.product_name d).getD []
      pyInsert ru.product_name (pyInsert ru.resource_name ru.usage_per_unit inner) d)
    []

/-- `ProductionOptimizerBase._extract_common_data`: returns
`(objective_type, products, resources, resource_usage)` where the last three
are Python dicts keyed by name. -/
def extractCommonData (data : InputData) :
    String × List (String × Product) × List (String × Resource) ×
      List (String × List (String × ℚ)) :=
  (data.objective,
   pyDict Product.name data.products,
   pyDict Resource.name data.resources,
   usageDict data.resource_usage)

/-- Gurobi objective sense (`GRB.MAXIMIZE` / `GRB.MINIMIZE`). -/
inductive ObjSense
  | maximize
  | minimize
deriving DecidableEq

/-- The linear objective installed by `_set_objective`: per-variable
coefficients in product-dict order, and the optimization sense. -/
structure Objective where
  coeffs : List (String × ℚ)
  sense : ObjSense
deriving DecidableEq

/-- `ProductionOptimizerBase._set_objective`: profit coefficients and
`GRB.MAXIMIZE` when the objective string is `'maximize_profit'`, otherwise
(the `else` branch) cost coefficients and `GRB.MINIMIZE`. -/
def setObjective (objective_type : String) (products : List (String × Product)) : Objective :=
  if objective_type = "maximize_profit" then
    { coeffs := products.map (fun np => (np.1, np.2.profit_per_unit)), sense := ObjSense.maximize }
  else
    { coeffs := products.map (fun np => (np.1, np.2.cost_per_unit)), sense := ObjSense.minimize }

/-- Bounds of one Gurobi decision variable; `ub = none` models the default
upper bound `GRB.INFINITY` (`float('inf')`). -/
structure VarBounds where
  lb : ℚ
  ub : Option ℚ
deriving DecidableEq

/-- `BasicProductionOptimizer._create_production_variables`: one continuous
variable per product with `lb = 0.0` and the default (infinite) upper bound. -/
def createProductionVariables (products : List (String × Product)) :
    List (String × VarBounds) :=
  products.map (fun np => (np.1, { lb := 0, ub := none }))

/-- `DemandConstrainedOptimizer._create_production_variables_with_demand`:
starts from `lb = 0.0`, `ub = float('inf')` and, when the product has an entry
in the demand-constraint dict, overrides `lb` with `min_demand` when that key
is present and `ub` with `max_demand` when that key is present. -/
def createProductionVariablesWithDemand (products : List (String × Product))
    (demand_constraints : List (String × DemandConstraint)) :
    List (String × VarBounds) :=
  products.map (fun np =>
    match dictGet np.1 demand_constraints with
    | some dc => (np.1, { lb := dc.min_demand.getD 0, ub := dc.max_demand })
    | none => (np.1, { lb := 0, ub := none }))

/-- A Gurobi linear constraint as built by `_add_resource_constraints`:
a name, the left-hand-side coefficients, and the right-hand side. -/
structure Constr where
  name : String
  coeffs : List (String × ℚ)
  rhs : ℚ
deriving DecidableEq

/-- `ProductionOptimizerBase._add_resource_constraints`: for each resource a
constraint named `resource_{name}` whose left-hand side sums
`usage_per_unit * var` over the products that have a usage entry for this
resource, bounded by `available_capacity`. -/
def addResourceConstraints (resources : List (String × Resource))
    (products : List (String × Product))
    (resource_usage : List (String × List (String × ℚ))) : List Constr :=
  resources.map (fun rr =>
    { name := "resource_" ++ rr.1
      coeffs := products.filterMap (fun np =>
        match dictGet np.1 resource_usage with
        | some inner =>
          match dictGet rr.1 inner with
          | some u => some (np.1, u)
          | none => none
        | none => none)
      rhs := rr.2.available_capacity })

/-- `model.getConstrByName(name)`: the constraint with the given name. -/
def getConstrByName (constrs : List Constr) (n : String) : Option Constr :=
  constrs.find? (fun c => c.name = n)

/-- CPython semantics of `constr_name == c` for a `str` against a gurobipy
`Constr` object (the comparisons performed by
`constr_name in model.getConstrs()` in `_get_resource_utilization`):
`str.__eq__` returns `NotImplemented` for a non-`str` operand and `Constr`
defines no equality with `str`, so the reflected comparison falls back to
identity and every such comparison is `False`. -/
def strEqConstrPy (_s : String) (_c : Constr) : Bool := false

/-- The membership test `constr_name in model.getConstrs()` from
`_get_resource_utilization`: `list.__contains__` compares the string against
each `Constr` object with `strEqConstrPy`. -/
def strInConstrList (s : String) (constrs : List Constr) : Bool :=
  constrs.any (fun c => strEqConstrPy s c)

/-- One value of the `resource_utilization` map:
`{used, available, utilization_pct}`. -/
structure UtilEntry where
  used : ℚ
  available : ℚ
  utilization_pct : ℚ
deriving DecidableEq

/-- The per-resource computation from the body of
`_get_resource_utilization`'s guarded branch: `used = available - slack` and
`utilization_pct = (used / available) * 100 if available > 0 else 0`. -/
def utilizationEntry (available slack : ℚ) : UtilEntry :=
  { used := available - slack
    available := available
    utilization_pct := if 0 < available then (available - slack) / available * 100 else 0 }

/-- Gurobi status code `GRB.OPTIMAL`. -/
def GRB_OPTIMAL : Nat := 2

/-- Gurobi status code `GRB.INFEASIBLE`. -/
def GRB_INFEASIBLE : Nat := 3

/-- Gurobi status code `GRB.UNBOUNDED`. -/
def GRB_UNBOUNDED : Nat := 5

/-- The solver-side data read back after `model.optimize()`: the terminal
status code, `var.x` per variable name, `model.objVal`, `constr.getSlack()`
per constraint name, and the `IISConstr` flag per constraint name after
`model.computeIIS()`.  This is the oracle for the opaque solver. -/
structure Outcome where
  status : Nat
  varAssign : String → ℚ
  objVal : ℚ
  slack : String → ℚ
  iisConstr : String → Bool

/-- The fixed epsilon `1e-8` used by `_prepare_result` to snap solver noise. -/
def EPSILON : ℚ := 1 / 100000000

/-- The snapping in `_prepare_result`'s optimal branch:
`if abs(value) < epsilon: value = 0.0`. -/
def snapValue (x : ℚ) : ℚ := if |x| < EPSILON then 0 else x

/-- The result dictionary returned across the system boundary; optional keys
are `none` when absent from the Python dict.  `infeasible_constraints` is a
list of constraint names or (the fallback) a bare string. -/
structure OptResult where
  status : String
  solver_message : String
  objective_value : Option ℚ := none
  production_plan : Option (List (String × ℚ)) := none
  resource_utilization : Option (List (String × UtilEntry)) := none
  infeasible_constraints : Option (List String ⊕ String) := none
  validation_errors : Option (List String) := none
  feasibility_warnings : Option (List String) := none
deriving DecidableEq

/-- `ProductionOptimizerBase._get_resource_utilization`: iterates the resource
dict and emits an entry only when `resource_{name} in model.getConstrs()`
holds (the string-vs-`Constr` membership test `strInConstrList`). -/
def getResourceUtilization (o : Outcome) (constrs : List Constr) :
    List (String × Resource) → List (String × UtilEntry)
  | [] => []
  | rr :: rest =>
    let constr_name := "resource_" ++ rr.1
    if strInConstrList constr_name constrs then
      ((getConstrByName constrs constr_name).elim []
        (fun c => [(rr.1, utilizationEntry c.rhs (o.slack constr_name))])) ++
        getResourceUtilization o constrs rest
    else
      getResourceUtilization o constrs rest

/-- `ProductionOptimizerBase._prepare_result`: the four-way mapping on
`model.status`.  In the infeasible branch, `model.computeIIS()` has flagged
`IISConstr` on constraints; the names of the flagged constraints are
collected, and the empty list (falsy in Python) is replaced by the string
`"Unknown"`. -/
def prepareResult (o : Outcome) (production_vars : List String)
    (constrs : List Constr) (resources : List (String × Resource)) : OptResult :=
  if o.status = GRB_OPTIMAL then
    { status := "optimal"
      objective_value := some o.objVal
      production_plan := some (production_vars.map (fun n => (n, snapValue (o.varAssign n))))
      resource_utilization := some (getResourceUtilization o constrs resources)
      solver_message := "Optimal solution found" }
  else if o.status = GRB_INFEASIBLE then
    let infeasible_constraints :=
      (constrs.filter (fun c => o.iisConstr c.name)).map Constr.name
    { status := "infeasible"
      solver_message := "The model is infeasible"
      infeasible_constraints :=
        some (if infeasible_constraints.isEmpty then Sum.inr "Unknown"
              else Sum.inl infeasible_constraints) }
  else if o.status = GRB_UNBOUNDED then
    { status := "unbounded"
      solver_message := "The model is unbounded (no finite optimal solution exists)" }
  else
    { status := "error"
      solver_message := "Optimization status: " ++ toString o.status }

/-- `BasicProductionOptimizer.solve`: the whole body runs inside
`try/except Exception`, modelled by the `Except` oracle — an exception during
model construction or solving yields `{'status': 'error',
'solver_message': str(e)}`. -/
def basicSolve (data : InputData) (optimize : Except String Outcome) : OptResult :=
  match optimize with
  | Except.error e => { status := "error", solver_message := e }
  | Except.ok o =>
    let (objective_type, products, resources, resource_usage) := extractCommonData data
    let production_vars := createProductionVariables products
    let _objective := setObjective objective_type products
    let constrs := addResourceConstraints resources products resource_usage
    prepareResult o (production_vars.map Prod.fst) constrs resources

/-- `DemandConstrainedOptimizer.solve`: identical pipeline, except that it
builds the demand-constraint dict from `data['demand_constraints']` — a
subscript that raises `KeyError('demand_constraints')` (caught by the
`except`, giving `str(e) = "'demand_constraints'"`) when the key is absent —
and creates variables with demand bounds. -/
def demandSolve (data : InputData) (optimize : Except String Outcome) : OptResult :=
  match data.demand_constraints with
  | none => { status := "error", solver_message := "'demand_constraints'" }
  | some dcList =>
    match optimize with
    | Except.error e => { status := "error", solver_message := e }
    | Except.ok o =>
      let (objective_type, products, resources, resource_usage) := extractCommonData data
      let demand_constraints := pyDict DemandConstraint.product_name dcList
      let production_vars := createProductionVariablesWithDemand products demand_constraints
      let _objective := setObjective objective_type products
      let constrs := addResourceConstraints resources products resource_usage
      prepareResult o (production_vars.map Prod.fst) constrs resources

/-- `ProductionOptimizerBase.validate_and_solve`.  The validator
(`core.validation.validate_optimization_input`) and the feasibility auditor
(`core.validation.validate_solution_feasibility`) live in a module that is not
part of the source tree, and `solve` is an abstract method, so all three are
parameters; the control flow below is the literal flow of the method. -/
def validateAndSolve (validate : InputData → Bool × List String)
    (solveFn : InputData → OptResult)
    (audit : OptResult → InputData → Bool × List String)
    (data : InputData) : OptResult :=
  let v := validate data
  if v.1 = false then
    { status := "validation_error"
      solver_message := "Input validation failed"
      validation_errors := some v.2 }
  else
    let result := solveFn data
    if result.status = "optimal" then
      let a := audit result data
      if a.1 = false then
        { result with status := "solution_warning", feasibility_warnings := some a.2 }
      else if a.2.length > 0 then
        { result with feasibility_warnings := some a.2 }
      else result
    else result

/-- The optimizer registry of `src/core/factory.py` after the explicit
registrations and `discover_optimizers` (which additionally registers
`BasicProductionOptimizer`, imported by `demand_production.py`, under the
kebab-case key `basic-production`). -/
inductive OptimizerKind
  | basic
  | basicProduction
  | demandConstrained
deriving DecidableEq

/-- `OptimizerFactory.get_optimizer`: dictionary lookup of the registry;
`none` models the `ValueError("Unknown optimizer type: ...")` path. -/
def factoryLookup (optimizer_type : String) : Option OptimizerKind :=
  if optimizer_type = "basic" then some OptimizerKind.basic
  else if optimizer_type = "demand-constrained" then some OptimizerKind.demandConstrained
  else if optimizer_type = "basic-production" then some OptimizerKind.basicProduction
  else none

/-- The `solve` method of each registered optimizer class. -/
def optimizerSolve : OptimizerKind → InputData → Except String Outcome → OptResult
  | OptimizerKind.basic => basicSolve
  | OptimizerKind.basicProduction => basicSolve
  | OptimizerKind.demandConstrained => demandSolve

/-- `ProductionOptimization.post` in `src/api/endpoints/production.py`: looks
the optimizer up in the factory and calls `optimizer.solve(data)` on the
request body, returning the result with HTTP 200; an unknown optimizer type
(the `ValueError`) returns an error dict with HTTP 400. -/
def endpointPost (optimizer_type : String) (data : InputData)
    (optimize : Except String Outcome) : OptResult × Nat :=
  match factoryLookup optimizer_type with
  | some k => (optimizerSolve k data optimize, 200)
  | none =>
    ({ status := "error", solver_message := "Unknown optimizer type: " ++ optimizer_type }, 400)

/-- Whether a list of names contains a duplicate. -/
def hasDuplicate : List String → Bool
  | [] => false
  | x :: rest => rest.contains x || hasDuplicate rest

/-- Modelled from the spec: `core.validation.validate_optimization_input` is
imported by `src/core/optimizers/base.py` but its module is not among the
source files.  Spec section 4.1: six checks run in order, accumulating every
failure rather than stopping at the first, returning
`(is_valid, ordered list of violation messages)`. -/
def validateOptimizationInput (data : InputData) : Bool × List String :=
  let dcs := data.demand_constraints.getD []
  let productNames := data.products.map Product.name
  let resourceNames := data.resources.map Resource.name
  let errs :=
    (if data.objective = "maximize_profit" ∨ data.objective = "minimize_cost" then []
     else ["Objective must be maximize_profit or minimize_cost"]) ++
    (if hasDuplicate productNames then ["Product names must be unique"] else []) ++
    (if hasDuplicate resourceNames then ["Resource names must be unique"] else []) ++
    (data.resource_usage.filterMap (fun ru =>
      if ru.product_name ∈ productNames ∧ ru.resource_name ∈ resourceNames then none
      else some "Resource usage references an undeclared product or resource")) ++
    (data.resources.filterMap (fun r =>
      if r.available_capacity < 0 then some "Resource capacity must be non-negative"
      else none)) ++
    (dcs.filterMap (fun dc =>
      match dc.min_demand, dc.max_demand with
      | some lo, some hi =>
        if hi < lo then some "min_demand must not exceed max_demand" else none
      | _, _ => none)) ++
    (dcs.filterMap (fun dc =>
      match dc.min_demand with
      | some lo => if lo < 0 then some "min_demand must be non-negative" else none
      | none => none)) ++
    (dcs.filterMap (fun dc =>
      if dc.product_name ∈ productNames then none
      else some "Demand constraint references an undeclared product"))
  (errs.isEmpty, errs)

/-! ## Lemmas shared by the claim theorems -/

theorem strInConstrList_eq_false (s : String) (constrs : List Constr) :
    strInConstrList s constrs = false := by
  induction constrs with
  | nil => rfl
  | cons c rest ih => simp [strInConstrList, strEqConstrPy] at ih ⊢

theorem getResourceUtilization_eq_nil (o : Outcome) (constrs : List Constr)
    (resources : List (String × Resource)) :
    getResourceUtilization o constrs resources = [] := by
  induction resources with
  | nil => rfl
  | cons rr rest ih =>
    simp [getResourceUtilization, strInConstrList_eq_false, ih]

theorem prepareResult_status_mem (o : Outcome) (production_vars : List String)
    (constrs : List Constr) (resources : List (String × Resource)) :
    (prepareResult o production_vars constrs resources).status ∈
      ["optimal", "infeasible", "unbounded", "error"] := by
  unfold prepareResult
  by_cases h2 : o.status = GRB_OPTIMAL
  · simp [h2]
  · by_cases h3 : o.status = GRB_INFEASIBLE
    · simp [h2, h3, GRB_OPTIMAL, GRB_INFEASIBLE]
    · by_cases h5 : o.status = GRB_UNBOUNDED
      · simp [h2, h3, h5, GRB_OPTIMAL, GRB_INFEASIBLE, GRB_UNBOUNDED]
      · simp [h2, h3, h5]

theorem basicSolve_status_mem (data : InputData) (optimize : Except String Outcome) :
    (basicSolve data optimize).status ∈ ["optimal", "infeasible", "unbounded", "error"] := by
  match optimize with
  | Except.error e => simp [basicSolve]
  | Except.ok o =>
    show (prepareResult _ _ _ _).status ∈ _
    exact prepareResult_status_mem ..

theorem mem_pyInsert {α : Type} {k k0 : String} {v x : α} {d : List (String × α)}
    (h : (k, v) ∈ pyInsert k0 x d) : (k = k0 ∧ v = x) ∨ (k, v) ∈ d := by
  induction d with
  | nil =>
    simp only [pyInsert, List.mem_singleton, Prod.mk.injEq] at h
    exact Or.inl h
  | cons a rest ih =>
    obtain ⟨a1, a2⟩ := a
    simp only [pyInsert] at h
    by_cases ha : a1 = k0
    · rw [if_pos ha] at h
      rcases List.mem_cons.1 h with h' | h'
      · simp only [Prod.mk.injEq] at h'
        exact Or.inl h'
      · exact Or.inr (List.mem_cons_of_mem _ h')
    · rw [if_neg ha] at h
      rcases List.mem_cons.1 h with h' | h'
      · exact Or.inr (h' ▸ List.mem_cons_self _ _)
      · rcases ih h' with h'' | h''
        · exact Or.inl h''
        · exact Or.inr (List.mem_cons_of_mem _ h'')

theorem mem_foldl_pyInsert {α : Type} (key : α → String) (l : List α) :
    ∀ (d : List (String × α)) (k : String) (v : α),
      (k, v) ∈ l.foldl (fun d x => pyInsert (key x) x d) d →
      (k, v) ∈ d ∨ ∃ x ∈ l, key x = k := by
  induction l with
  | nil => intro d k v h; exact Or.inl h
  | cons y ys ih =>
    intro d k v h
    rcases ih _ k v h with h' | h'
    · rcases mem_pyInsert h' with ⟨h1, _⟩ | h''
      · exact Or.inr ⟨y, List.mem_cons_self _ _, h1.symm⟩
      · exact Or.inl h''
    · obtain ⟨x, hx, hk⟩ := h'
      exact Or.inr ⟨x, List.mem_cons_of_mem _ hx, hk⟩

theorem mem_pyDict_key {α : Type} (key : α → String) {l : List α} {k : String} {v : α}
    (h : (k, v) ∈ pyDict key l) : ∃ x ∈ l, key x = k := by
  rcases mem_foldl_pyInsert key l [] k v h with h' | h'
  · simp at h'
  · exact h'

theorem basicSolve_ok (data : InputData) (o : Outcome) :
    basicSolve data (Except.ok o) =
      prepareResult o
        ((createProductionVariables (pyDict Product.name data.products)).map Prod.fst)
        (addResourceConstraints (pyDict Resource.name data.resources)
          (pyDict Product.name data.products) (usageDict data.resource_usage))
        (pyDict Resource.name data.resources) := rfl

theorem demandSolve_ok (data : InputData) (dcList : List DemandConstraint) (o : Outcome)
    (h : data.demand_constraints = some dcList) :
    demandSolve data (Except.ok o) =
      prepareResult o
        ((createProductionVariablesWithDemand (pyDict Product.name data.products)
          (pyDict DemandConstraint.product_name dcList)).map Prod.fst)
        (addResourceConstraints (pyDict Resource.name data.resources)
          (pyDict Product.name data.products) (usageDict data.resource_usage))
        (pyDict Resource.name data.resources) := by
  unfold demandSolve
  rw [h]
  rfl

/-! ## Claim theorems -/


/-- C9: in `_set_objective`, every objective string other than
`'maximize_profit'` — validated or not — takes the `else` branch: the
objective is built from `cost_per_unit` with sense `GRB.MINIMIZE`, and no
error is raised for an unknown objective kind. -/
theorem c9_unrecognized_objective_minimizes_cost (objective_type : String)
    (products : List (String × Product)) (h : objective_type ≠ "maximize_profit") :
    setObjective objective_type products =
      { coeffs := products.map (fun np => (np.1, np.2.cost_per_unit))
        sense := ObjSense.minimize } := by
  simp [setObjective, h]

/-- Witness for C9 at the unvalidated objective string `"maximise"`. -/
theorem c9_unrecognized_objective_minimizes_cost_witness :
    setObjective "maximise" [("A", { name := "A", profit_per_unit := 3, cost_per_unit := 1 })] =
      { coeffs := [("A", 1)], sense := ObjSense.minimize } :=
  c9_unrecognized_objective_minimizes_cost "maximise"
    [("A", { name := "A", profit_per_unit := 3, cost_per_unit := 1 })] (by decide)

/-- C3: `solve` is total over the solver status domain and over exceptions:
an exception during model construction or solving yields
`{'status': 'error', 'solver_message': str(e)}`; a terminal status other than
`GRB.OPTIMAL` / `GRB.INFEASIBLE` / `GRB.UNBOUNDED` yields status `'error'`
with the raw status code in the message; and every outcome produces a result
whose status is one of the four result statuses — nothing falls through. -/
theorem c3_solve_total_over_status_domain (data : InputData) (o : Outcome) (e : String) :
    basicSolve data (Except.error e) = { status := "error", solver_message := e } ∧
    (o.status ≠ GRB_OPTIMAL → o.status ≠ GRB_INFEASIBLE → o.status ≠ GRB_UNBOUNDED →
      basicSolve data (Except.ok o) =
        { status := "error", solver_message := "Optimization status: " ++ toString o.status }) ∧
    (basicSolve data (Except.ok o)).status ∈ ["optimal", "infeasible", "unbounded", "error"] := by
  refine ⟨rfl, fun h2 h3 h5 => ?_, basicSolve_status_mem ..⟩
  rw [basicSolve_ok]
  simp [prepareResult, h2, h3, h5]

/-- Witness for C3 at the unhandled Gurobi status code 9 (`TIME_LIMIT`) and a
concrete raised exception. -/
theorem c3_solve_total_over_status_domain_witness :
    basicSolve
        { objective := "maximize_profit"
          products := [{ name := "A", profit_per_unit := 3, cost_per_unit := 1 }]
          resources := [{ name := "R1", available_capacity := 100 }]
          resource_usage := [{ product_name := "A", resource_name := "R1", usage_per_unit := 1 }]
          demand_constraints := none }
        (Except.error "boom") =
      { status := "error", solver_message := "boom" } ∧
    basicSolve
        { objective := "maximize_profit"
          products := [{ name := "A", profit_per_unit := 3, cost_per_unit := 1 }]
          resources := [{ name := "R1", available_capacity := 100 }]
          resource_usage := [{ product_name := "A", resource_name := "R1", usage_per_unit := 1 }]
          demand_constraints := none }
        (Except.ok
          { status := 9, varAssign := fun _ => 0, objVal := 0
            slack := fun _ => 0, iisConstr := fun _ => false }) =
      { status := "error", solver_message := "Optimization status: 9" } := by
  have h := c3_solve_total_over_status_domain
    { objective := "maximize_profit"
      products := [{ name := "A", profit_per_unit := 3, cost_per_unit := 1 }]
      resources := [{ name := "R1", available_capacity := 100 }]
      resource_usage := [{ product_name := "A", resource_name := "R1", usage_per_unit := 1 }]
      demand_constraints := none }
    { status := 9, varAssign := fun _ => 0, objVal := 0
      slack := fun _ => 0, iisConstr := fun _ => false }
    "boom"
  exact ⟨h.1, h.2.1 (by decide) (by decide) (by decide)⟩

/-- C1 is a code bug: `_get_resource_utilization` guards each entry with
`constr_name in model.getConstrs()`, a membership test of a `str` against a
list of `Constr` objects, which is always false in CPython; consequently the
`resource_utilization` of every optimal result is the empty dict, never one
entry per resource as the spec describes. -/
theorem c1_resource_utilization_never_populated (data : InputData) (o : Outcome)
    (h : o.status = GRB_OPTIMAL) :
    (basicSolve data (Except.ok o)).resource_utilization = some [] := by
  rw [basicSolve_ok]
  simp [prepareResult, h, getResourceUtilization_eq_nil]

/-- Witness for C1: the spec section 8 basic scenario (products A and B,
resource R1 of capacity 100) solved to optimality still reports an empty
`resource_utilization`, although the problem has a resource. -/
theorem c1_resource_utilization_never_populated_witness :
    ({ objective := "maximize_profit"
       products := [{ name := "A", profit_per_unit := 3, cost_per_unit := 1 },
                    { name := "B", profit_per_unit := 5, cost_per_unit := 2 }]
       resources := [{ name := "R1", available_capacity := 100 }]
       resource_usage := [{ product_name := "A", resource_name := "R1", usage_per_unit := 1 },
                          { product_name := "B", resource_name := "R1", usage_per_unit := 2 }]
       demand_constraints := none } : InputData).resources ≠ [] ∧
    (basicSolve
        { objective := "maximize_profit"
          products := [{ name := "A", profit_per_unit := 3, cost_per_unit := 1 },
                       { name := "B", profit_per_unit := 5, cost_per_unit := 2 }]
          resources := [{ name := "R1", available_capacity := 100 }]
          resource_usage := [{ product_name := "A", resource_name := "R1", usage_per_unit := 1 },
                             { product_name := "B", resource_name := "R1", usage_per_unit := 2 }]
          demand_constraints := none }
        (Except.ok
          { status := 2
            varAssign := fun n => if n = "B" then 50 else 0
            objVal := 250
            slack := fun _ => 0
            iisConstr := fun _ => false })).resource_utilization = some [] :=
  ⟨by decide, c1_resource_utilization_never_populated _ _ rfl⟩

/-- C8: in the optimal branch of `_prepare_result`, the production plan is
the solver's variable assignment with every quantity of absolute value below
the fixed epsilon `1e-8` replaced by exactly `0.0`, every quantity of absolute
value at least `1e-8` reported unchanged, and one entry per product. -/
theorem c8_epsilon_snap (data : InputData) (o : Outcome) (h : o.status = GRB_OPTIMAL) :
    ∃ plan, (basicSolve data (Except.ok o)).production_plan = some plan ∧
      plan.map Prod.fst = (pyDict Product.name data.products).map Prod.fst ∧
      ∀ nq ∈ plan,
        (|o.varAssign nq.1| < EPSILON → nq.2 = 0) ∧
        (EPSILON ≤ |o.varAssign nq.1| → nq.2 = o.varAssign nq.1) := by
  refine ⟨((createProductionVariables (pyDict Product.name data.products)).map Prod.fst).map
    (fun n => (n, snapValue (o.varAssign n))), ?_, ?_, ?_⟩
  · rw [basicSolve_ok]
    simp [prepareResult, h]
  · simp [createProductionVariables, List.map_map]
  · intro nq hmem
    rw [List.mem_map] at hmem
    obtain ⟨n, _, rfl⟩ := hmem
    constructor
    · intro hlt
      simp [snapValue, hlt]
    · intro hge
      simp [snapValue, not_lt.mpr hge]

/-- Witness for C8: a solver assignment with one sub-epsilon value
(`5e-9`, snapped to 0) and one value above epsilon (reported unchanged). -/
theorem c8_epsilon_snap_witness :
    ∃ plan,
      (basicSolve
          { objective := "maximize_profit"
            products := [{ name := "A", profit_per_unit := 3, cost_per_unit := 1 },
                         { name := "B", profit_per_unit := 5, cost_per_unit := 2 }]
            resources := [{ name := "R1", available_capacity := 100 }]
            resource_usage := [{ product_name := "A", resource_name := "R1", usage_per_unit := 1 },
                               { product_name := "B", resource_name := "R1", usage_per_unit := 2 }]
            demand_constraints := none }
          (Except.ok
            { status := 2
              varAssign := fun n => if n = "A" then 1 / 200000000 else 50
              objVal := 250
              slack := fun _ => 0
              iisConstr := fun _ => false })).production_plan = some plan ∧
      plan.map Prod.fst =
        (pyDict Product.name
          [{ name := "A", profit_per_unit := 3, cost_per_unit := 1 },
           { name := "B", profit_per_unit := 5, cost_per_unit := 2 }]).map Prod.fst ∧
      ∀ nq ∈ plan,
        (|(fun n => if n = "A" then (1 : ℚ) / 200000000 else 50) nq.1| < EPSILON → nq.2 = 0) ∧
        (EPSILON ≤ |(fun n => if n = "A" then (1 : ℚ) / 200000000 else 50) nq.1| →
          nq.2 = (fun n => if n = "A" then (1 : ℚ) / 200000000 else 50) nq.1) :=
  c8_epsilon_snap _ _ rfl

/-- C10: when the `'demand_constraints'` key is absent from the input, the
demand-constrained variant's `solve` raises `KeyError('demand_constraints')`,
which its `except` clause converts into `{'status': 'error',
'solver_message': "'demand_constraints'"}` — the absent key is not treated as
an empty set of demand constraints. -/
theorem c10_missing_demand_key_is_error (data : InputData)
    (optimize : Except String Outcome) (h : data.demand_constraints = none) :
    demandSolve data optimize =
      { status := "error", solver_message := "'demand_constraints'" } := by
  unfold demandSolve
  rw [h]

/-- Witness for C10: a concrete payload without the `'demand_constraints'`
key, together with a solver oracle that would report optimality. -/
theorem c10_missing_demand_key_is_error_witness :
    demandSolve
      { objective := "maximize_profit"
        products := [{ name := "A", profit_per_unit := 3, cost_per_unit := 1 }]
        resources := [{ name := "R1", available_capacity := 100 }]
        resource_usage := [{ product_name := "A", resource_name := "R1", usage_per_unit := 1 }]
        demand_constraints := none }
      (Except.ok
        { status := 2, varAssign := fun _ => 100, objVal := 300
          slack := fun _ => 0, iisConstr := fun _ => false }) =
      { status := "error", solver_message := "'demand_constraints'" } :=
  c10_missing_demand_key_is_error _ _ rfl

/-- C2 is a code bug: `validate_and_solve` does implement
validate → solve → audit, but the public entry point
`ProductionOptimization.post` calls `optimizer.solve(data)` directly, so for a
request whose body fails validation (here: an unrecognized objective string)
the endpoint never returns `'validation_error'` — the solver runs on the
unvalidated input and its outcome alone determines the status — whereas
routing the same request through `validate_and_solve` would return
`'validation_error'` with the violation list and never invoke the solver. -/
theorem c2_endpoint_bypasses_validation (optimize : Except String Outcome) :
    (validateOptimizationInput
      { objective := "bogus", products := [], resources := [],
        resource_usage := [], demand_constraints := none }).1 = false ∧
    (endpointPost "basic"
      { objective := "bogus", products := [], resources := [],
        resource_usage := [], demand_constraints := none } optimize).1 =
      basicSolve
        { objective := "bogus", products := [], resources := [],
          resource_usage := [], demand_constraints := none } optimize ∧
    (endpointPost "basic"
      { objective := "bogus", products := [], resources := [],
        resource_usage := [], demand_constraints := none } optimize).1.status ≠
      "validation_error" ∧
    validateAndSolve validateOptimizationInput
      (fun d => basicSolve d optimize) (fun _ _ => (true, []))
      { objective := "bogus", products := [], resources := [],
        resource_usage := [], demand_constraints := none } =
      { status := "validation_error"
        solver_message := "Input validation failed"
        validation_errors := some ["Objective must be maximize_profit or minimize_cost"] } := by
  refine ⟨rfl, rfl, ?_, rfl⟩
  have hmem := basicSolve_status_mem
    { objective := "bogus", products := [], resources := [],
      resource_usage := [], demand_constraints := none } optimize
  have he : (endpointPost "basic"
      { objective := "bogus", products := [], resources := [],
        resource_usage := [], demand_constraints := none } optimize).1 =
      basicSolve
        { objective := "bogus", products := [], resources := [],
          resource_usage := [], demand_constraints := none } optimize := rfl
  rw [he]
  simp only [List.mem_cons, List.not_mem_nil, or_false] at hmem
  rcases hmem with h | h | h | h <;> rw [h] <;> decide

/-- C4: in `validate_and_solve`, once validation passes, the feasibility
audit governs the final result exactly when the inner solve reports
`'optimal'`: a non-optimal solve result is returned unchanged (for every
audit, so the audit never influences it); an optimal result with an
infeasible audit is downgraded to `'solution_warning'` with the warnings
attached; an optimal result with a feasible audit and nonempty warnings keeps
status `'optimal'` with the warnings attached; and whenever the audit reports
infeasible the final status is never `'optimal'`. -/
theorem c4_audit_gating (validate : InputData → Bool × List String)
    (solveFn : InputData → OptResult)
    (audit audit' : OptResult → InputData → Bool × List String)
    (data : InputData)
    (hv : (validate data).1 = true) :
    (¬ (solveFn data).status = "optimal" →
      validateAndSolve validate solveFn audit data = solveFn data) ∧
    ((solveFn data).status = "optimal" → (audit (solveFn data) data).1 = false →
      validateAndSolve validate solveFn audit data =
        { solveFn data with
            status := "solution_warning"
            feasibility_warnings := some (audit (solveFn data) data).2 }) ∧
    ((solveFn data).status = "optimal" → (audit (solveFn data) data).1 = true →
      (audit (solveFn data) data).2 ≠ [] →
      validateAndSolve validate solveFn audit data =
        { solveFn data with feasibility_warnings := some (audit (solveFn data) data).2 }) ∧
    ((solveFn data).status = "optimal" → (audit (solveFn data) data).1 = true →
      (audit (solveFn data) data).2 = [] →
      validateAndSolve validate solveFn audit data = solveFn data) ∧
    ((audit (solveFn data) data).1 = false →
      (validateAndSolve validate solveFn audit data).status ≠ "optimal") ∧
    (¬ (solveFn data).status = "optimal" →
      validateAndSolve validate solveFn audit data =
        validateAndSolve validate solveFn audit' data) := by
  refine ⟨fun h1 => by simp [validateAndSolve, hv, h1],
          fun h1 h2 => by simp [validateAndSolve, hv, h1, h2],
          fun h1 h2 h3 => by simp [validateAndSolve, hv, h1, h2, List.length_pos.mpr h3],
          fun h1 h2 h3 => by simp [validateAndSolve, hv, h1, h2, h3],
          ?_,
          fun h1 => by simp [validateAndSolve, hv, h1]⟩
  intro ha
  by_cases h1 : (solveFn data).status = "optimal"
  · simp [validateAndSolve, hv, h1, ha]
  · have hns : validateAndSolve validate solveFn audit data = solveFn data := by
      simp [validateAndSolve, hv, h1]
    rw [hns]
    exact h1

/-- Witness for C4: a passing validator, an optimal solve result, and an
audit that reports infeasibility with one warning; the result is downgraded. -/
theorem c4_audit_gating_witness :
    validateAndSolve (fun _ => (true, []))
      (fun _ => { status := "optimal", solver_message := "Optimal solution found" })
      (fun _ _ => (false, ["capacity exceeded"]))
      { objective := "maximize_profit", products := [], resources := [],
        resource_usage := [], demand_constraints := none } =
      { status := "solution_warning"
        solver_message := "Optimal solution found"
        feasibility_warnings := some ["capacity exceeded"] } := by
  have h := (c4_audit_gating (fun _ => (true, []))
    (fun _ => { status := "optimal", solver_message := "Optimal solution found" })
    (fun _ _ => (false, ["capacity exceeded"])) (fun _ _ => (true, []))
    { objective := "maximize_profit", products := [], resources := [],
      resource_usage := [], demand_constraints := none } rfl).2.1 rfl rfl
  exact h

/-- C5: the basic variant creates every product's decision variable with
lower bound 0 and the default (infinite) upper bound; the demand-constrained
variant creates it with lower bound `min_demand` when the effective demand
constraint for that product carries one (else 0) and upper bound `max_demand`
when present (else infinite). -/
theorem c5_variable_bounds (products : List (String × Product))
    (demand_constraints : List (String × DemandConstraint)) (n : String) (p : Product)
    (h : (n, p) ∈ products) :
    (n, ({ lb := 0, ub := none } : VarBounds)) ∈ createProductionVariables products ∧
    (n, (match dictGet n demand_constraints with
         | some dc => ({ lb := dc.min_demand.getD 0, ub := dc.max_demand } : VarBounds)
         | none => ({ lb := 0, ub := none } : VarBounds))) ∈
      createProductionVariablesWithDemand products demand_constraints := by
  constructor
  · exact List.mem_map.2 ⟨(n, p), h, rfl⟩
  · refine List.mem_map.2 ⟨(n, p), h, ?_⟩
    cases hd : dictGet n demand_constraints <;> simp [createProductionVariablesWithDemand, hd]

/-- Witness for C5: product A with a demand constraint `min_demand = 20`,
`max_demand = 60` gets bounds `[20, 60]`; in the basic variant it gets
`[0, ∞)`. -/
theorem c5_variable_bounds_witness :
    ("A", ({ lb := 0, ub := none } : VarBounds)) ∈
      createProductionVariables
        [("A", { name := "A", profit_per_unit := 3, cost_per_unit := 1 }),
         ("B", { name := "B", profit_per_unit := 5, cost_per_unit := 2 })] ∧
    ("A", ({ lb := 20, ub := some 60 } : VarBounds)) ∈
      createProductionVariablesWithDemand
        [("A", { name := "A", profit_per_unit := 3, cost_per_unit := 1 }),
         ("B", { name := "B", profit_per_unit := 5, cost_per_unit := 2 })]
        [("A", { product_name := "A", min_demand := some 20, max_demand := some 60 })] :=
  c5_variable_bounds _ _ "A" { name := "A", profit_per_unit := 3, cost_per_unit := 1 }
    (by decide)

theorem prepareResult_infeasible (o : Outcome) (production_vars : List String)
    (constrs : List Constr) (resources : List (String × Resource))
    (h : o.status = GRB_INFEASIBLE) :
    prepareResult o production_vars constrs resources =
      { status := "infeasible"
        solver_message := "The model is infeasible"
        infeasible_constraints :=
          some (if ((constrs.filter (fun c => o.iisConstr c.name)).map Constr.name).isEmpty
                then Sum.inr "Unknown"
                else Sum.inl ((constrs.filter (fun c => o.iisConstr c.name)).map Constr.name)) } := by
  unfold prepareResult
  rw [h]
  rfl

/-- C6 counterexample: for an infeasible outcome with no IIS constraints
flagged, the fallback value actually stored in `infeasible_constraints` is
the literal string `"Unknown"` (capital U), not `'unknown'` as the claim
states. -/
theorem c6_fallback_literal_counterexample :
    (basicSolve
        { objective := "maximize_profit"
          products := [{ name := "A", profit_per_unit := 3, cost_per_unit := 1 }]
          resources := [{ name := "R1", available_capacity := 100 }]
          resource_usage := [{ product_name := "A", resource_name := "R1", usage_per_unit := 1 }]
          demand_constraints := none }
        (Except.ok
          { status := 3, varAssign := fun _ => 0, objVal := 0
            slack := fun _ => 0, iisConstr := fun _ => false })).status = "infeasible" ∧
    (basicSolve
        { objective := "maximize_profit"
          products := [{ name := "A", profit_per_unit := 3, cost_per_unit := 1 }]
          resources := [{ name := "R1", available_capacity := 100 }]
          resource_usage := [{ product_name := "A", resource_name := "R1", usage_per_unit := 1 }]
          demand_constraints := none }
        (Except.ok
          { status := 3, varAssign := fun _ => 0, objVal := 0
            slack := fun _ => 0, iisConstr := fun _ => false })).infeasible_constraints =
      some (Sum.inr "Unknown") ∧
    (basicSolve
        { objective := "maximize_profit"
          products := [{ name := "A", profit_per_unit := 3, cost_per_unit := 1 }]
          resources := [{ name := "R1", available_capacity := 100 }]
          resource_usage := [{ product_name := "A", resource_name := "R1", usage_per_unit := 1 }]
          demand_constraints := none }
        (Except.ok
          { status := 3, varAssign := fun _ => 0, objVal := 0
            slack := fun _ => 0, iisConstr := fun _ => false })).infeasible_constraints ≠
      some (Sum.inr "unknown") :=
  ⟨rfl, rfl, by decide⟩

/-- C6 amended: when the solver reports infeasible, the result has status
`'infeasible'` with the fixed message, and `infeasible_constraints` is
exactly the list of names of the IIS-flagged capacity constraints when at
least one is flagged — each of the form `resource_{name}` for a resource of
the problem — and exactly the fallback string `"Unknown"` when no constraint
is flagged; a result dictionary is returned in every case. -/
theorem c6_infeasible_diagnosis (data : InputData) (o : Outcome)
    (h : o.status = GRB_INFEASIBLE) :
    (basicSolve data (Except.ok o)).status = "infeasible" ∧
    (basicSolve data (Except.ok o)).solver_message = "The model is infeasible" ∧
    (basicSolve data (Except.ok o)).infeasible_constraints =
      some
        (if (((addResourceConstraints (pyDict Resource.name data.resources)
                (pyDict Product.name data.products)
                (usageDict data.resource_usage)).filter
                  (fun c => o.iisConstr c.name)).map Constr.name).isEmpty
         then Sum.inr "Unknown"
         else Sum.inl (((addResourceConstraints (pyDict Resource.name data.resources)
                (pyDict Product.name data.products)
                (usageDict data.resource_usage)).filter
                  (fun c => o.iisConstr c.name)).map Constr.name)) ∧
    ∀ m ∈ ((addResourceConstraints (pyDict Resource.name data.resources)
             (pyDict Product.name data.products)
             (usageDict data.resource_usage)).filter
               (fun c => o.iisConstr c.name)).map Constr.name,
      ∃ r ∈ data.resources, m = "resource_" ++ r.name := by
  rw [basicSolve_ok data o, prepareResult_infeasible o _ _ _ h]
  refine ⟨rfl, rfl, rfl, ?_⟩
  intro m hm
  rw [List.mem_map] at hm
  obtain ⟨c, hc, rfl⟩ := hm
  have hc' : c ∈ addResourceConstraints (pyDict Resource.name data.resources)
      (pyDict Product.name data.products) (usageDict data.resource_usage) :=
    List.mem_of_mem_filter hc
  rw [addResourceConstraints, List.mem_map] at hc'
  obtain ⟨rr, hrr, rfl⟩ := hc'
  obtain ⟨rk, rv⟩ := rr
  obtain ⟨res, hres, hkey⟩ := mem_pyDict_key Resource.name hrr
  exact ⟨res, hres, by rw [← hkey]⟩

/-- Witness for C6 amended: an infeasible outcome whose IIS flags exactly the
capacity constraint of resource R1; the result attaches exactly
`["resource_R1"]`, the solver's flagged set mapped to resource identity. -/
theorem c6_infeasible_diagnosis_witness :
    (basicSolve
        { objective := "maximize_profit"
          products := [{ name := "A", profit_per_unit := 3, cost_per_unit := 1 }]
          resources := [{ name := "R1", available_capacity := 100 }]
          resource_usage := [{ product_name := "A", resource_name := "R1", usage_per_unit := 1 }]
          demand_constraints := none }
        (Except.ok
          { status := 3, varAssign := fun _ => 0, objVal := 0
            slack := fun _ => 0, iisConstr := fun s => s == "resource_R1" })).status =
      "infeasible" ∧
    (basicSolve
        { objective := "maximize_profit"
          products := [{ name := "A", profit_per_unit := 3, cost_per_unit := 1 }]
          resources := [{ name := "R1", available_capacity := 100 }]
          resource_usage := [{ product_name := "A", resource_name := "R1", usage_per_unit := 1 }]
          demand_constraints := none }
        (Except.ok
          { status := 3, varAssign := fun _ => 0, objVal := 0
            slack := fun _ => 0, iisConstr := fun s => s == "resource_R1" })).infeasible_constraints =
      some (Sum.inl ["resource_R1"]) :=
  ⟨(c6_infeasible_diagnosis
      { objective := "maximize_profit"
        products := [{ name := "A", profit_per_unit := 3, cost_per_unit := 1 }]
        resources := [{ name := "R1", available_capacity := 100 }]
        resource_usage := [{ product_name := "A", resource_name := "R1", usage_per_unit := 1 }]
        demand_constraints := none }
      { status := 3, varAssign := fun _ => 0, objVal := 0
        slack := fun _ => 0, iisConstr := fun s => s == "resource_R1" } rfl).1,
   ((c6_infeasible_diagnosis
      { objective := "maximize_profit"
        products := [{ name := "A", profit_per_unit := 3, cost_per_unit := 1 }]
        resources := [{ name := "R1", available_capacity := 100 }]
        resource_usage := [{ product_name := "A", resource_name := "R1", usage_per_unit := 1 }]
        demand_constraints := none }
      { status := 3, varAssign := fun _ => 0, objVal := 0
        slack := fun _ => 0, iisConstr := fun s => s == "resource_R1" } rfl).2.2.1).trans
     (by decide)⟩

/-- C7 counterexample: negative `usage_per_unit` passes every check of the
spec section 4.1 validator, and with usage −1 and production quantity 10
against capacity 100 the solution is feasible for the capacity constraint
(used = −1·10 = −10 ≤ 100) with slack = available − used = 110; the
utilization computation of `_get_resource_utilization` then reports
`used = −10` and `utilization_pct = −10`, outside `[0, 100]`, so feasibility
of an optimal solution alone does not put `utilization_pct` in `[0, 100]`. -/
theorem c7_negative_usage_counterexample :
    (validateOptimizationInput
      { objective := "maximize_profit"
        products := [{ name := "A", profit_per_unit := 3, cost_per_unit := 1 }]
        resources := [{ name := "R1", available_capacity := 100 }]
        resource_usage := [{ product_name := "A", resource_name := "R1", usage_per_unit := -1 }]
        demand_constraints := none }).1 = true ∧
    (-1 : ℚ) * 10 ≤ 100 ∧
    (100 : ℚ) - (-1) * 10 = 110 ∧
    (utilizationEntry 100 110).used = -10 ∧
    (utilizationEntry 100 110).utilization_pct = -10 ∧
    ¬ (0 ≤ (utilizationEntry 100 110).utilization_pct) := by
  refine ⟨rfl, by norm_num, by norm_num, ?_, ?_, ?_⟩ <;> simp [utilizationEntry] <;> norm_num

/-- C7 amended: the per-resource utilization computation of
`_get_resource_utilization` — `used = available - slack`,
`utilization_pct = used / available * 100` guarded by `available > 0` — lies
in `[0, 100]` for a feasible optimal solution whose resource consumption is
also nonnegative (`0 ≤ slack` from feasibility of the capacity constraint and
`slack ≤ available`, i.e. `0 ≤ used ≤ available`; automatic when every
`usage_per_unit` is nonnegative), and is exactly 0 whenever the available
capacity is 0; moreover every entry of the `resource_utilization` map of an
optimal result satisfies the same bounds (vacuously so: by the C1 guard bug
that map is always empty). -/
theorem c7_utilization_pct_in_range (data : InputData) (o : Outcome)
    (available slack : ℚ) (h : o.status = GRB_OPTIMAL)
    (h0 : 0 ≤ slack) (h1 : slack ≤ available) :
    (0 ≤ (utilizationEntry available slack).utilization_pct ∧
     (utilizationEntry available slack).utilization_pct ≤ 100 ∧
     (available = 0 → (utilizationEntry available slack).utilization_pct = 0)) ∧
    ∀ ru, (basicSolve data (Except.ok o)).resource_utilization = some ru →
      ∀ e ∈ ru, 0 ≤ e.2.utilization_pct ∧ e.2.utilization_pct ≤ 100 ∧
        (e.2.available = 0 → e.2.utilization_pct = 0) := by
  constructor
  · unfold utilizationEntry
    by_cases hpos : 0 < available
    · rw [if_pos hpos]
      refine ⟨?_, ?_, ?_⟩
      · exact mul_nonneg (div_nonneg (by linarith) (le_of_lt hpos)) (by norm_num)
      · have hd : (available - slack) / available ≤ 1 := by
          rw [div_le_one hpos]
          linarith
        calc (available - slack) / available * 100 ≤ 1 * 100 :=
              mul_le_mul_of_nonneg_right hd (by norm_num)
          _ = 100 := by norm_num
      · intro hz
        rw [hz] at hpos
        exact absurd hpos (lt_irrefl 0)
    · rw [if_neg hpos]
      exact ⟨le_refl 0, by norm_num, fun _ => rfl⟩
  · intro ru hru e he
    have hmap : (basicSolve data (Except.ok o)).resource_utilization = some [] := by
      rw [basicSolve_ok]
      simp [prepareResult, h, getResourceUtilization_eq_nil]
    rw [hmap] at hru
    injection hru with hru'
    rw [← hru'] at he
    exact absurd he (List.not_mem_nil e)

/-- Witness for C7: capacity 100 with slack 25 gives `utilization_pct = 75`,
inside `[0, 100]`, under a concrete optimal solver outcome. -/
theorem c7_utilization_pct_in_range_witness :
    (0 ≤ (utilizationEntry 100 25).utilization_pct ∧
     (utilizationEntry 100 25).utilization_pct ≤ 100 ∧
     ((100 : ℚ) = 0 → (utilizationEntry 100 25).utilization_pct = 0)) ∧
    ∀ ru,
      (basicSolve
        { objective := "maximize_profit"
          products := [{ name := "A", profit_per_unit := 3, cost_per_unit := 1 }]
          resources := [{ name := "R1", available_capacity := 100 }]
          resource_usage := [{ product_name := "A", resource_name := "R1", usage_per_unit := 1 }]
          demand_constraints := none }
        (Except.ok
          { status := 2, varAssign := fun _ => 75, objVal := 225
            slack := fun _ => 25, iisConstr := fun _ => false })).resource_utilization =
        some ru →
      ∀ e ∈ ru, 0 ≤ e.2.utilization_pct ∧ e.2.utilization_pct ≤ 100 ∧
        (e.2.available = 0 → e.2.utilization_pct = 0) :=
  c7_utilization_pct_in_range
    { objective := "maximize_profit"
      products := [{ name := "A", profit_per_unit := 3, cost_per_unit := 1 }]
      resources := [{ name := "R1", available_capacity := 100 }]
      resource_usage := [{ product_name := "A", resource_name := "R1", usage_per_unit := 1 }]
      demand_constraints := none }
    { status := 2, varAssign := fun _ => 75, objVal := 225
      slack := fun _ => 25, iisConstr := fun _ => false }
    100 25 rfl (by norm_num) (by norm_num)

end ProdOpt
